import Mathlib

/-!
Verification development for the market-bloom-frontend repository.

The client application is embedded shallowly: JavaScript strings become
lists of characters, the view handlers become pure functions that return
the list of observable events (HTTP calls, toasts, navigations, state
updates) they would emit, and the axios request interceptor becomes a
function from the stored token and a request configuration to the
configuration actually sent.
-/

namespace MarketBloom

/-- A JavaScript string, modelled as its list of characters. -/
abbrev Str := List Char

/-- `String.prototype.toLowerCase`, modelled characterwise. -/
def lower (s : Str) : Str := s.map Char.toLower

/-- `haystack.includes(needle)`: contiguous-substring containment. -/
def includes (haystack needle : Str) : Bool := decide (needle <:+: haystack)

/-- `String.prototype.trim`: drop whitespace from both ends. -/
def trim (s : Str) : Str :=
  ((s.dropWhile Char.isWhitespace).reverse.dropWhile Char.isWhitespace).reverse

/-- A product record (`Product` in `src/lib/api.ts`): name, price, category. -/
structure Product where
  name : Str
  price : ℚ
  category : Str
deriving DecidableEq

/-- A shop record as fetched by the dashboards (`Shop` in
`src/pages/BuyerDashboard.tsx`). -/
structure Shop where
  _id : Str
  shopName : Str
  location : Str
  products : List Product
  owner : Str
deriving DecidableEq

/-- The predicate of the search filter in `BuyerDashboard.tsx` (and the
identical one in the Home view): the lowercased query must occur in the
lowercased shop name, location, or some product's name or category. -/
def shopMatches (searchQuery : Str) (shop : Shop) : Bool :=
  let query := lower searchQuery
  includes (lower shop.shopName) query ||
  includes (lower shop.location) query ||
  shop.products.any fun product =>
    includes (lower product.name) query || includes (lower product.category) query

/-- `filteredShops` from `BuyerDashboard.tsx` / the Home view:
`shops.filter(shop => ...)`. -/
def filteredShops (searchQuery : Str) (shops : List Shop) : List Shop :=
  shops.filter (shopMatches searchQuery)

theorem includes_eq_true {s q : Str} : includes s q = true ↔ q <:+: s := by
  simp [includes]

/-- C1: a shop is in the filtered list exactly when it is in the fetched
list and the lowercased query is a substring of its lowercased name, of its
lowercased location, or of the lowercased name or category of one of its
products. -/
theorem c1_filter_membership (searchQuery : Str) (shops : List Shop) (shop : Shop) :
    shop ∈ filteredShops searchQuery shops ↔
      shop ∈ shops ∧
        (lower searchQuery <:+: lower shop.shopName ∨
         lower searchQuery <:+: lower shop.location ∨
         ∃ product ∈ shop.products,
           lower searchQuery <:+: lower product.name ∨
           lower searchQuery <:+: lower product.category) := by
  unfold filteredShops
  rw [List.mem_filter]
  unfold shopMatches
  simp [includes_eq_true, List.any_eq_true, or_assoc]

/-- C10: filtering with the empty query returns the fetched list itself,
and for every query the filtered list is a sublist (ordered subsequence)
of the fetched list. -/
theorem c10_empty_query_identity (shops : List Shop) :
    filteredShops [] shops = shops ∧
      ∀ q : Str, (filteredShops q shops).Sublist shops := by
  constructor
  · unfold filteredShops
    apply List.filter_eq_self.mpr
    intro shop _
    unfold shopMatches
    simp [includes, lower]
  · intro q
    exact List.filter_sublist shops

/-! ## The axios request interceptor (`src/lib/api.ts`, lines 14-20) -/

/-- An outgoing request configuration: its header map, as an association
list from header names to values. -/
structure RequestConfig where
  headers : List (Str × Str)
deriving DecidableEq

/-- `config.headers[k] = v`: set (overwrite) one header. -/
def setHeader (config : RequestConfig) (k v : Str) : RequestConfig :=
  ⟨(k, v) :: config.headers.eraseP (fun p => p.1 == k)⟩

/-- Read a header from a configuration. -/
def getHeader (config : RequestConfig) (k : Str) : Option Str :=
  List.lookup k config.headers

/-- The header name used by the interceptor. -/
def xAuthToken : Str := "x-auth-token".toList

/-- The request interceptor of `src/lib/api.ts`: read the token from
local storage (`none` models a missing key) and, if it is truthy (present
and non-empty, per JavaScript truthiness), set the `x-auth-token` header. -/
def requestInterceptor (storage : Option Str) (config : RequestConfig) : RequestConfig :=
  match storage with
  | some token => if token ≠ [] then setHeader config xAuthToken token else config
  | none => config

/-- C3 counterexample: when local storage holds no token, the request goes
out without any `x-auth-token` header, so the interceptor does not attach
an auth header to every outgoing request. -/
theorem c3_counterexample :
    getHeader (requestInterceptor none ⟨[]⟩) xAuthToken = none := by
  rfl

/-- C3 amended: the interceptor attaches the `x-auth-token` header, with
the stored token as its value, exactly when local storage holds a
non-empty token; otherwise it forwards the configuration unchanged. -/
theorem c3_amended (storage : Option Str) (config : RequestConfig) :
    getHeader (requestInterceptor storage config) xAuthToken =
      (match storage with
       | some token => if token = [] then getHeader config xAuthToken else some token
       | none => getHeader config xAuthToken) ∧
    (match storage with
     | some token => token = [] → requestInterceptor storage config = config
     | none => requestInterceptor storage config = config) := by
  cases storage with
  | none => exact ⟨rfl, rfl⟩
  | some token =>
    by_cases h : token = []
    · simp [requestInterceptor, h]
    · simp [requestInterceptor, h, getHeader, setHeader, List.lookup]

/-! ## `shopAPI.getShops` (`src/lib/api.ts`, lines 105-114) -/

/-- The query parameters assembled by `getShops`. -/
structure GetShopsParams where
  location : Option Str
  lat : Option ℚ
  lng : Option ℚ
deriving DecidableEq

/-- JavaScript truthiness of an optional string (`undefined` and the empty
string are falsy). -/
def truthyStr : Option Str → Bool
  | some s => s ≠ []
  | none => false

/-- JavaScript truthiness of an optional number (`undefined` and `0` are
falsy; numbers are modelled as rationals). -/
def truthyNum : Option ℚ → Bool
  | some x => decide (x ≠ 0)
  | none => false

/-- `shopAPI.getShops`: build the `params` object. `location` is added if
the location argument is truthy; `lat` and `lng` are added if both the
latitude and the longitude arguments are truthy (`latitude && longitude`). -/
def getShopsParams (location : Option Str) (latitude longitude : Option ℚ) :
    GetShopsParams :=
  let p0 : GetShopsParams := ⟨none, none, none⟩
  let p1 := if truthyStr location then { p0 with location := location } else p0
  if truthyNum latitude && truthyNum longitude then
    { p1 with lat := latitude, lng := longitude }
  else p1

/-- C4 counterexample: with latitude 0 and longitude 5 both supplied, the
request carries no `lat`/`lng` parameters, because `latitude && longitude`
is falsy at 0; so the coordinates are not always forwarded when both are
given. -/
theorem c4_counterexample :
    (getShopsParams none (some 0) (some 5)).lat = none ∧
    (getShopsParams none (some 0) (some 5)).lng = none := by
  constructor <;> rfl

/-- C4 amended: the request carries a `location` parameter exactly when a
non-empty location string is supplied, and carries the latitude and
longitude as `lat`/`lng` parameters exactly when both coordinates are
supplied and both are nonzero (JavaScript truthiness of numbers). -/
theorem c4_amended (location : Option Str) (latitude longitude : Option ℚ) :
    (getShopsParams location latitude longitude).location =
      (if truthyStr location then location else none) ∧
    (getShopsParams location latitude longitude).lat =
      (if truthyNum latitude && truthyNum longitude then latitude else none) ∧
    (getShopsParams location latitude longitude).lng =
      (if truthyNum latitude && truthyNum longitude then longitude else none) := by
  unfold getShopsParams
  by_cases hl : truthyStr location = true <;>
    by_cases hc : (truthyNum latitude && truthyNum longitude) = true <;>
      simp [hl, hc]

/-! ## Session users and role-based redirects -/

/-- The `userType` discriminator of an authenticated user. -/
inductive UserType
  | buyer
  | seller
deriving DecidableEq

/-- The authenticated user held in the session (`AuthResponse.user` in
`src/lib/api.ts`). -/
structure SessionUser where
  id : Str
  name : Str
  email : Str
  userType : UserType
deriving DecidableEq

/-- The route chosen by the signup view after a successful signup
(`navigate(response.user.userType === 'seller' ? '/seller' : '/buyer')`). -/
def signupRedirect (user : SessionUser) : Str :=
  if user.userType = UserType.seller then "/seller".toList else "/buyer".toList

/-- The route chosen by the `Index` page's effect once a user is
authenticated (`src/pages/Index.tsx`, lines 13-17). -/
def indexRedirect (user : SessionUser) : Str :=
  if user.userType = UserType.seller then "/seller".toList else "/buyer".toList

/-- Modelled from the spec: the login view's redirect by role after a
successful login ("store a returned token/session, redirect by role");
the login page's source is not under `src/`. -/
def loginRedirect (user : SessionUser) : Str :=
  if user.userType = UserType.seller then "/seller".toList else "/buyer".toList

/-! ## Observable events emitted by the view handlers -/

/-- One HTTP call made through the API client, with its payload. -/
inductive ApiCall
  | signup (name email password userType : Str)
  | login (email password : Str)
  | addReview (shopId userId userName : Str) (rating : ℕ) (comment : Str)
  | getReviews (shopId : Str)
  | createShop (shopName location : Str) (products : List Product)
  | updateShop (shopId shopName location : Str) (products : List Product)
  | getMyShop
  | addProduct (shopId : Str) (product : Product)
  | updateProduct (shopId productId : Str) (product : Product)
  | deleteProduct (shopId productId : Str)
deriving DecidableEq

/-- An observable action of a view handler, in emission order. -/
inductive Event
  | http (call : ApiCall)
  | toastError (msg : Str)
  | toastSuccess (msg : Str)
  | navigate (route : Str)
  | storeSession
  | setReviewText (text : Str)
  | setRating (value : ℕ)
  | setReviews
  | setSubmitting (flag : Bool)
  | setCreating (flag : Bool)
  | setLoading (flag : Bool)
  | setAddingProduct (flag : Bool)
  | refreshMyShop
  | resetForm
  | clearProductForm
  | stopEditingProduct
deriving DecidableEq

/-- The HTTP calls issued by a trace of events, in order. -/
def httpCalls (events : List Event) : List ApiCall :=
  events.filterMap fun e =>
    match e with
    | .http c => some c
    | _ => none

/-! ## `handleSubmitReview` (Home view, shop detail dialog) -/

/-- The review form's local state: the comment text and the star rating. -/
structure ReviewFormState where
  reviewText : Str
  rating : ℕ
deriving DecidableEq

def loginPromptMsg : Str := "Please login to submit a review".toList

def reviewTooShortMsg : Str := "Review must be at least 10 characters long".toList

def reviewSuccessMsg : Str := "Review submitted successfully!".toList

def reviewFailMsg : Str := "Failed to submit review".toList

/-- `handleSubmitReview` from the Home view: guard on authentication, on a
selected shop and user, and on the trimmed comment length; then POST the
review, clear the form, and re-fetch the review list. `addOk` and
`refreshOk` model whether the two backend calls succeed; the result is the
emitted event trace together with the final review form state. -/
def handleSubmitReview (isAuthenticated : Bool) (selectedShop : Option Shop)
    (user : Option SessionUser) (st : ReviewFormState)
    (addOk refreshOk : Bool) : List Event × ReviewFormState :=
  if !isAuthenticated then
    ([.toastError loginPromptMsg, .navigate ("/login".toList)], st)
  else
    match selectedShop, user with
    | some shop, some u =>
      if (trim st.reviewText).length < 10 then
        ([.toastError reviewTooShortMsg], st)
      else if addOk then
        if refreshOk then
          ([.setSubmitting true,
            .http (.addReview shop._id u.id u.name st.rating (trim st.reviewText)),
            .toastSuccess reviewSuccessMsg, .setReviewText [], .setRating 5,
            .http (.getReviews shop._id), .setReviews, .setSubmitting false],
           ⟨[], 5⟩)
        else
          ([.setSubmitting true,
            .http (.addReview shop._id u.id u.name st.rating (trim st.reviewText)),
            .toastSuccess reviewSuccessMsg, .setReviewText [], .setRating 5,
            .http (.getReviews shop._id), .toastError reviewFailMsg,
            .setSubmitting false],
           ⟨[], 5⟩)
      else
        ([.setSubmitting true,
          .http (.addReview shop._id u.id u.name st.rating (trim st.reviewText)),
          .toastError reviewFailMsg, .setSubmitting false], st)
    | _, _ => ([], st)

/-! ## `handleCreateShop` and `fetchMyShop` (ShopManagement view) -/

def shopCreatedMsg : Str := "Shop created successfully!".toList

def createShopFailMsg : Str := "Failed to create shop".toList

def fetchShopFailMsg : Str := "Failed to fetch shop details".toList

/-- `fetchMyShop` from the ShopManagement view: GET the caller's shop and
store it; a failure toasts unless the backend answered 404. -/
def fetchMyShop (fetchOk notFound : Bool) : List Event :=
  [.setLoading true, .http .getMyShop] ++
    (if fetchOk then [.refreshMyShop]
     else if notFound then [] else [.toastError fetchShopFailMsg]) ++
    [.setLoading false]

/-- Characters the zod email pattern allows in the local part: ASCII
letters and digits, underscore, apostrophe (code 39), plus, hyphen, dot. -/
def emailLocalChar (c : Char) : Bool :=
  c.isAlphanum || c = '_' || c.toNat = 39 || c = '+' || c = '-' || c = '.'

/-- Characters the zod email pattern allows as the final character of the
local part (no dot, no apostrophe). -/
def emailLocalEndChar (c : Char) : Bool :=
  c.isAlphanum || c = '_' || c = '+' || c = '-'

/-- Local-part check: non-empty, drawn from the allowed characters, not
starting with a dot, not containing two consecutive dots, and ending in a
letter, digit, underscore, plus or hyphen. -/
def emailLocalOk (localPart : Str) : Bool :=
  localPart ≠ [] && localPart.all emailLocalChar &&
  localPart.head? != some '.' && !(includes localPart ['.', '.']) &&
  (match localPart.getLast? with
   | some c => emailLocalEndChar c
   | none => false)

/-- A domain label: a letter or digit followed by letters, digits or
hyphens. -/
def emailLabelOk (lbl : Str) : Bool :=
  match lbl with
  | [] => false
  | c :: rest => c.isAlphanum && rest.all fun d => d.isAlphanum || d = '-'

/-- The final (top-level) domain label: at least two letters. -/
def emailTldOk (lbl : Str) : Bool :=
  decide (2 ≤ lbl.length) && lbl.all Char.isAlpha

/-- Domain check: at least one label, a dot, and a top-level label. -/
def emailDomainOk (domainPart : Str) : Bool :=
  let parts := domainPart.splitOn '.'
  decide (2 ≤ parts.length) && parts.dropLast.all emailLabelOk &&
  (match parts.getLast? with
   | some tld => emailTldOk tld
   | none => false)

/-- Modelled from the spec: the zod library's `z.string().email()` check
used by `signupSchema` ("validate client-side"); the zod library is a
dependency, not part of this repository. The string must split at a single
`@` into a valid local part and a valid dotted domain. -/
def isValidEmail (email : Str) : Bool :=
  match email.splitOn '@' with
  | [localPart, domainPart] => emailLocalOk localPart && emailDomainOk domainPart
  | _ => false

/-- The data entered into the signup form; `userType` is the raw string
checked against the enum `['buyer', 'seller']`. -/
structure SignupForm where
  name : Str
  email : Str
  password : Str
  userType : Str
deriving DecidableEq

/-- `signupSchema`: name at least 2 characters, a valid email, password at
least 6 characters, and `userType` one of `buyer`/`seller`. -/
def signupFormValid (f : SignupForm) : Bool :=
  decide (2 ≤ f.name.length) && isValidEmail f.email &&
  decide (6 ≤ f.password.length) &&
  (f.userType == "buyer".toList || f.userType == "seller".toList)

def accountCreatedMsg : Str := "Account created successfully!".toList

def signupFailMsg : Str := "Signup failed. Please try again.".toList

/-- The signup form submission: `handleSubmit(onSubmit)` runs the zod
resolver and calls `onSubmit` only on schema-valid data; `onSubmit` posts
to the auth endpoint, stores the session and redirects by role. `result`
is the authenticated user decoded from the response on success. -/
def signupSubmit (f : SignupForm) (signupOk : Bool) (result : SessionUser) :
    List Event :=
  if signupFormValid f then
    if signupOk then
      [.setLoading true, .http (.signup f.name f.email f.password f.userType),
       .storeSession, .toastSuccess accountCreatedMsg,
       .navigate (signupRedirect result), .setLoading false]
    else
      [.setLoading true, .http (.signup f.name f.email f.password f.userType),
       .toastError signupFailMsg, .setLoading false]
  else []

/-! ## The seller shop form schema (`shopSchema` in the SellerDashboard) -/

/-- One product row of the seller form. `price` is the result of
`z.coerce.number()` on the numeric input: `none` models a non-numeric
entry (NaN), `some x` the coerced number. -/
structure ProductForm where
  name : Str
  price : Option ℚ
  category : Str
deriving DecidableEq

/-- `productSchema`: non-empty name, positive coerced price, non-empty
category. -/
def productFormValid (p : ProductForm) : Bool :=
  decide (1 ≤ p.name.length) &&
  (match p.price with
   | some x => decide (0 < x)
   | none => false) &&
  decide (1 ≤ p.category.length)

/-- The data entered into the seller shop form. -/
structure ShopForm where
  shopName : Str
  location : Str
  products : List ProductForm
deriving DecidableEq

/-- `shopSchema`: shop name at least 2 characters, location at least 2
characters, at least one product, each product valid. -/
def shopFormValid (f : ShopForm) : Bool :=
  decide (2 ≤ f.shopName.length) && decide (2 ≤ f.location.length) &&
  decide (1 ≤ f.products.length) && f.products.all productFormValid

/-- The product payload sent for a validated product row. -/
def coerceProduct (p : ProductForm) : Product :=
  ⟨p.name, p.price.getD 0, p.category⟩

/-- The seller form submission: `handleSubmit(onSubmit)` runs the zod
resolver and calls `onSubmit` only on schema-valid data; `onSubmit` posts
the shop and resets the form. -/
def sellerCreateShopSubmit (f : ShopForm) (createOk : Bool) : List Event :=
  if shopFormValid f then
    if createOk then
      [.setLoading true,
       .http (.createShop f.shopName f.location (f.products.map coerceProduct)),
       .toastSuccess shopCreatedMsg, .resetForm, .setLoading false]
    else
      [.setLoading true,
       .http (.createShop f.shopName f.location (f.products.map coerceProduct)),
       .toastError createShopFailMsg, .setLoading false]
  else []

/-! ## The star rating selector (Home view detail dialog) -/

/-- A user interaction that changes the `rating` state: clicking one of
the five rendered stars (`[1, 2, 3, 4, 5].map(...)`, `onClick={() =>
setRating(star)}`), or the reset to 5 after a successful submission. -/
inductive RatingAction
  | clickStar (star : Fin 5)
  | submitReset
deriving DecidableEq

/-- Effect of one interaction on the `rating` state. -/
def ratingStep (_r : ℕ) (a : RatingAction) : ℕ :=
  match a with
  | .clickStar star => star.val + 1
  | .submitReset => 5

/-- The `rating` state after a sequence of interactions, starting from the
initial value `useState(5)`. -/
def ratingAfter (acts : List RatingAction) : ℕ :=
  List.foldl ratingStep 5 acts

/-- An HTTP call's review rating is in range (vacuously true for calls
that carry no rating). -/
def ratingInRange (c : ApiCall) : Bool :=
  match c with
  | .addReview _ _ _ rating _ => decide (1 ≤ rating) && decide (rating ≤ 5)
  | _ => true

/-! ## Classification of API calls, and sample data -/

/-- A concrete shop used to instantiate universally quantified theorems. -/
def sampleShop : Shop :=
  ⟨"shop1".toList, "Bloom Garden".toList, "Market Square".toList, [],
   "owner1".toList⟩

/-- A concrete buyer used to instantiate universally quantified theorems. -/
def sampleBuyer : SessionUser :=
  ⟨"u1".toList, "Ann Lee".toList, "ann@example.com".toList, UserType.buyer⟩

/-! ## Theorems for the remaining claims -/

/-- `fetchMyShop` issues exactly the my-shop GET. -/
theorem httpCalls_fetchMyShop (fetchOk notFound : Bool) :
    httpCalls (fetchMyShop fetchOk notFound) = [ApiCall.getMyShop] := by
  cases fetchOk <;> cases notFound <;> rfl

/-- C5: after a successful signup the app navigates to `/seller` iff the
authenticated user's type is seller and to `/buyer` otherwise; the Index
effect and the (spec-modelled) login view use the same redirect; and the
navigation happens after the session is stored. -/
theorem c5_redirect_by_role (user : SessionUser) (f : SignupForm) :
    (signupRedirect user = "/seller".toList ↔ user.userType = UserType.seller) ∧
    (signupRedirect user = "/buyer".toList ↔ user.userType ≠ UserType.seller) ∧
    loginRedirect user = signupRedirect user ∧
    indexRedirect user = signupRedirect user ∧
    signupSubmit f true user =
      (if signupFormValid f then
        [.setLoading true, .http (.signup f.name f.email f.password f.userType),
         .storeSession, .toastSuccess accountCreatedMsg,
         .navigate (signupRedirect user), .setLoading false]
       else []) := by
  rcases user with ⟨i, n, e, t⟩
  cases t <;>
    simp [signupRedirect, loginRedirect, indexRedirect, signupSubmit]

/-- Bridge between the source's price check and the claim's phrasing. -/
theorem priceValid_iff (p : Option ℚ) :
    (match p with
     | some x => decide (0 < x)
     | none => false) = true ↔ ∃ x, p = some x ∧ 0 < x := by
  cases p <;> simp

/-- C6: the seller shop form validates exactly when the shop name and
location each have at least 2 characters, the product list is non-empty,
and every product has a non-empty name, a positive numeric price and a
non-empty category; the create-shop HTTP call is issued exactly for
validated data. -/
theorem c6_shop_schema (f : ShopForm) (createOk : Bool) :
    (shopFormValid f = true ↔
      (2 ≤ f.shopName.length ∧ 2 ≤ f.location.length ∧ f.products ≠ [] ∧
        ∀ p ∈ f.products,
          p.name ≠ [] ∧ (∃ x, p.price = some x ∧ 0 < x) ∧ p.category ≠ [])) ∧
    httpCalls (sellerCreateShopSubmit f createOk) =
      (if shopFormValid f then
        [ApiCall.createShop f.shopName f.location (f.products.map coerceProduct)]
       else []) := by
  constructor
  · simp only [shopFormValid, productFormValid, Bool.and_eq_true,
      decide_eq_true_iff, List.all_eq_true, priceValid_iff,
      ← List.length_pos, Nat.lt_iff_add_one_le, Nat.zero_add, and_assoc]
  · by_cases h : shopFormValid f = true
    · cases createOk <;> simp [sellerCreateShopSubmit, h, httpCalls]
    · simp [sellerCreateShopSubmit, h, httpCalls]

/-- C7: the signup form validates exactly when the name has at least 2
characters, the email passes the (zod-modelled) email check, the password
has at least 6 characters, and the user type is `buyer` or `seller`; the
auth endpoint is called exactly for validated data. -/
theorem c7_signup_schema (f : SignupForm) (signupOk : Bool)
    (result : SessionUser) :
    (signupFormValid f = true ↔
      (2 ≤ f.name.length ∧ isValidEmail f.email = true ∧
        6 ≤ f.password.length ∧
        (f.userType = "buyer".toList ∨ f.userType = "seller".toList))) ∧
    httpCalls (signupSubmit f signupOk result) =
      (if signupFormValid f then
        [ApiCall.signup f.name f.email f.password f.userType]
       else []) := by
  constructor
  · simp only [signupFormValid, Bool.and_eq_true, Bool.or_eq_true,
      decide_eq_true_iff, beq_iff_eq, and_assoc]
  · by_cases h : signupFormValid f = true
    · cases signupOk <;> simp [signupSubmit, h, httpCalls]
    · simp [signupSubmit, h, httpCalls]

/-- Stepping the star selector preserves the rating bounds. -/
theorem foldl_ratingStep_bounds (acts : List RatingAction) :
    ∀ r : ℕ, 1 ≤ r → r ≤ 5 →
      1 ≤ List.foldl ratingStep r acts ∧ List.foldl ratingStep r acts ≤ 5 := by
  induction acts with
  | nil => exact fun r h1 h2 => ⟨h1, h2⟩
  | cons a rest ih =>
    intro r h1 h2
    cases a with
    | clickStar star =>
      exact ih (star.val + 1) (Nat.succ_le_succ (Nat.zero_le _)) star.isLt
    | submitReset => exact ih 5 (by decide) (by decide)

/-- Every review POST issued by `handleSubmitReview` carries the current
rating state. -/
theorem handleSubmitReview_rating_ok (isAuthenticated : Bool)
    (selectedShop : Option Shop) (user : Option SessionUser)
    (st : ReviewFormState) (addOk refreshOk : Bool)
    (h1 : 1 ≤ st.rating) (h2 : st.rating ≤ 5) :
    (httpCalls (handleSubmitReview isAuthenticated selectedShop user st
        addOk refreshOk).1).all ratingInRange = true := by
  unfold handleSubmitReview
  cases isAuthenticated with
  | false => simp [httpCalls]
  | true =>
    cases selectedShop with
    | none => cases user <;> simp [httpCalls]
    | some shop =>
      cases user with
      | none => simp [httpCalls]
      | some u =>
        by_cases h : (trim st.reviewText).length < 10
        · simp [h, httpCalls]
        · cases addOk <;> cases refreshOk <;>
            simp [h, httpCalls, ratingInRange, h1, h2]

/-- C8: the star selector starts at 5 and only ever produces ratings 1
through 5, so every review submitted through the dialog carries a rating
between 1 and 5 inclusive. -/
theorem c8_rating_in_range (acts : List RatingAction) (isAuthenticated : Bool)
    (selectedShop : Option Shop) (user : Option SessionUser) (text : Str)
    (addOk refreshOk : Bool) :
    ratingAfter [] = 5 ∧
    (httpCalls (handleSubmitReview isAuthenticated selectedShop user
        ⟨text, ratingAfter acts⟩ addOk refreshOk).1).all ratingInRange = true := by
  refine ⟨rfl, ?_⟩
  have hb := foldl_ratingStep_bounds acts 5 (by decide) (by decide)
  exact handleSubmitReview_rating_ok isAuthenticated selectedShop user
    ⟨text, ratingAfter acts⟩ addOk refreshOk hb.1 hb.2

/-- C9: with a signed-in buyer and a selected shop, a trimmed comment of
fewer than 10 characters makes the submission fail locally with the error
toast, with no HTTP call and the form state unchanged. -/
theorem c9_short_comment_rejected (shop : Shop) (u : SessionUser)
    (st : ReviewFormState) (addOk refreshOk : Bool)
    (h : (trim st.reviewText).length < 10) :
    handleSubmitReview true (some shop) (some u) st addOk refreshOk =
      ([.toastError reviewTooShortMsg], st) := by
  unfold handleSubmitReview
  simp [h]

/-- Witness for C9 at a concrete 9-character comment. -/
theorem c9_witness :
    (trim ("too short".toList)).length < 10 ∧
    handleSubmitReview true (some sampleShop) (some sampleBuyer)
        ⟨"too short".toList, 4⟩ true true =
      ([.toastError reviewTooShortMsg], ⟨"too short".toList, 4⟩) :=
  ⟨by decide,
   c9_short_comment_rejected sampleShop sampleBuyer
     ⟨"too short".toList, 4⟩ true true (by decide)⟩

end MarketBloom
